import Mathlib

/-
Shallow embedding of src/src/main.rs of the oscilloscope repository.

The program is a single-threaded poll loop driving two external state
machines: the mcp3008 ADC acquisition session (crate rpi_lfa_rppal) and
the ac_driver carrier-estimator session (crate rpi_lfa).  Only main.rs is
part of this repository, so the internals of the two sessions are not
modelled; instead each loop iteration receives an `Env` value that
supplies the outcome every external call would return this iteration
(the result of `initializing.probe()`, `probing.poll()`,
`voltage_read(now, v)`, and the current monotonic instant `now`).
The loop body (main.rs lines 110-193) is then a total function from
(state, Env) to `Except Error (state, outputs)`.

Real numbers (f64 in the source) are modelled as rationals so that all
arithmetic is exact and executable; monotonic instants and durations are
rationals as well.
-/

deriving instance DecidableEq for Except

namespace Oscilloscope

/-- mcp3008::Channel, the eight ADC input channels (main.rs lines 69-79). -/
inductive Channel
  | ch0 | ch1 | ch2 | ch3 | ch4 | ch5 | ch6 | ch7
deriving DecidableEq, Repr

/-- Opaque transport-level error payload of the mcp3008 crate
(`mcp3008::Error`); its internal structure does not matter to main.rs,
which only wraps and propagates it. -/
inductive Mcp3008Error
  | mk (code : Nat)
deriving DecidableEq, Repr

/-- The `Error` enum of main.rs lines 26-30. -/
inductive Error
  | channelIsNotInRangeFrom0To7 (provided : Nat)
  | mcp3008 (e : Mcp3008Error)
deriving DecidableEq, Repr

/-- mcp3008::Vdd: nominal supply voltage choices (main.rs lines 82-87). -/
inductive Vdd
  | positive3v3
  | positive5v
deriving DecidableEq, Repr

/-- mcp3008::Vref: reference-voltage configuration (main.rs lines 88-95). -/
inductive Vref
  | equalToVdd
  | other (voltage : ℚ)
deriving DecidableEq, Repr

/-- mcp3008::Params (main.rs lines 81-96). -/
structure Mcp3008Params where
  voltage_drain : Vdd
  voltage_ref : Vref
deriving DecidableEq, Repr

/-- CliMcp3008Vdd, the CLI-level supply-voltage enum (main.rs lines 56-62). -/
inductive CliMcp3008Vdd
  | positive3v3
  | positive5v
deriving DecidableEq, Repr

/-- The channel match of main.rs lines 69-79: values 0-7 map to the eight
channels, anything else is the ChannelIsNotInRangeFrom0To7 error. -/
def channelOfNat : Nat → Except Error Channel
  | 0 => .ok .ch0
  | 1 => .ok .ch1
  | 2 => .ok .ch2
  | 3 => .ok .ch3
  | 4 => .ok .ch4
  | 5 => .ok .ch5
  | 6 => .ok .ch6
  | 7 => .ok .ch7
  | provided => .error (.channelIsNotInRangeFrom0To7 provided)

/-- The voltage_drain match of main.rs lines 82-87. -/
def vddOfCli : CliMcp3008Vdd → Vdd
  | .positive3v3 => .positive3v3
  | .positive5v => .positive5v

/-- The voltage_ref match of main.rs lines 88-95: no explicit reference
means EqualToVdd, an explicit value becomes Vref::Other. -/
def vrefOfCli : Option ℚ → Vref
  | none => .equalToVdd
  | some value => .other value

/-- Construction of mcp3008::Params from the CLI arguments
(main.rs lines 81-96). -/
def buildParams (voltage_drain : CliMcp3008Vdd) (voltage_ref : Option ℚ) :
    Mcp3008Params :=
  { voltage_drain := vddOfCli voltage_drain
    voltage_ref := vrefOfCli voltage_ref }

/-- The three states of the mcp3008 acquisition session
(`mcp3008::Session`); the payload objects of the Rust enum only carry the
transition methods, so states are plain tags here. -/
inductive Mcp3008Session
  | initializing
  | ready
  | probing
deriving DecidableEq, Repr

/-- Outcome of `initializing.probe()` (main.rs lines 116-123). -/
inductive InitializingOp
  | idle
  | ready
deriving DecidableEq, Repr

/-- Outcome of `probing.poll()` (main.rs lines 129-138): either still
converting, or a completed conversion carrying its channel and value. -/
inductive ProbingOp
  | idle
  | done (channel : Channel) (value : ℚ)
deriving DecidableEq, Repr

/-- The estimate snapshot read from the ac_driver session
(`estimated.values()`): frequency.0, amplitude.max.value.0 and
amplitude.min.value.0 flattened into three rationals. -/
structure AcValues where
  frequency : ℚ
  amplitude_max : ℚ
  amplitude_min : ℚ
deriving DecidableEq, Repr

/-- The two states of the ac_driver session (`ac_driver::Session`):
Initializing is the unlocked state, Estimated the locked state. -/
inductive AcSession
  | initializing
  | estimated
deriving DecidableEq, Repr

/-- Outcome of `initializing.voltage_read(now, voltage)` on the ac_driver
(main.rs lines 148-156): still unlocked, or carrier detected with the
values of the freshly estimated session. -/
inductive AcInitializingOp
  | idle
  | carrierDetected (values : AcValues)
deriving DecidableEq, Repr

/-- Outcome of `estimated.voltage_read(now, voltage)` on the ac_driver
(main.rs lines 159-168): still locked with refreshed values, or carrier
lost. -/
inductive AcEstimatedOp
  | idle (values : AcValues)
  | carrierLost
deriving DecidableEq, Repr

/-- One iteration worth of environment inputs: the monotonic instant and
the outcome each external call would return if made this iteration. -/
structure Env where
  now : ℚ
  initProbe : Except Mcp3008Error InitializingOp
  probePoll : Except Mcp3008Error ProbingOp
  acInitRead : AcInitializingOp
  acEstRead : AcEstimatedOp

/-- The mutable state owned by the loop of main.rs: the two sessions, the
last-flush instant and the four rolling-statistics accumulators
(main.rs lines 100-107). -/
structure LoopState where
  mcp3008_session : Mcp3008Session
  ac_driver_session : AcSession
  ac_last_dump : ℚ
  ac_samples : Nat
  ac_avg_hz : ℚ
  ac_avg_hi : ℚ
  ac_avg_lo : ℚ
deriving DecidableEq, Repr

/-- The rolling-statistics accumulators alone (main.rs lines 101-104). -/
structure Stats where
  ac_samples : Nat
  ac_avg_hz : ℚ
  ac_avg_hi : ℚ
  ac_avg_lo : ℚ
deriving DecidableEq, Repr

/-- The mcp3008 session match of main.rs lines 113-140: one acquisition
step, returning the next session state and the voltage surfaced for the
configured channel, if any.  A completed conversion whose channel differs
from the configured one is discarded (the `Done { ready, .. }` arm). -/
def mcp3008Step (mcp3008_channel : Channel) (session : Mcp3008Session)
    (env : Env) : Except Mcp3008Error (Mcp3008Session × Option ℚ) :=
  match session with
  | .initializing =>
    match env.initProbe with
    | .error e => .error e
    | .ok .idle => .ok (.initializing, none)
    | .ok .ready => .ok (.ready, none)
  | .ready => .ok (.probing, none)
  | .probing =>
    match env.probePoll with
    | .error e => .error e
    | .ok .idle => .ok (.probing, none)
    | .ok (.done channel value) =>
      if channel = mcp3008_channel then .ok (.ready, some value)
      else .ok (.ready, none)

/-- The ac_driver session match of main.rs lines 145-170: one estimator
step, returning the next session state and the values read, if any. -/
def acDriverStep (session : AcSession) (env : Env) :
    AcSession × Option AcValues :=
  match session with
  | .initializing =>
    match env.acInitRead with
    | .idle => (.initializing, none)
    | .carrierDetected values => (.estimated, some values)
  | .estimated =>
    match env.acEstRead with
    | .idle values => (.estimated, some values)
    | .carrierLost => (.initializing, none)

/-- The recording step of main.rs lines 172-177: when values were read,
bump the sample count and add into the three running sums. -/
def recordStats (stats : Stats) (ac_values_read : Option AcValues) : Stats :=
  match ac_values_read with
  | none => stats
  | some v =>
    { ac_samples := stats.ac_samples + 1
      ac_avg_hz := stats.ac_avg_hz + v.frequency
      ac_avg_hi := stats.ac_avg_hi + v.amplitude_max
      ac_avg_lo := stats.ac_avg_lo + v.amplitude_min }

/-- What a flush emits (main.rs lines 180-186): the no-samples notice, or
the three arithmetic means. -/
inductive FlushOutput
  | noSamples
  | means (avg_hz : ℚ) (avg_hi : ℚ) (avg_lo : ℚ)
deriving DecidableEq, Repr

/-- The emission branch of main.rs lines 180-186. -/
def flushOutput (stats : Stats) : FlushOutput :=
  if stats.ac_samples = 0 then .noSamples
  else
    .means (stats.ac_avg_hz / (stats.ac_samples : ℚ))
      (stats.ac_avg_hi / (stats.ac_samples : ℚ))
      (stats.ac_avg_lo / (stats.ac_samples : ℚ))

/-- Instant::duration_since on the monotonic clock: saturates at zero
when the earlier instant is not actually earlier. -/
def durationSince (now earlier : ℚ) : ℚ :=
  if now - earlier < 0 then 0 else now - earlier

/-- Everything one loop iteration surfaces: the voltage read for the
configured channel, the estimator values that were recorded, and the
flush emission, each when present. -/
structure StepOutput where
  channel_voltage_read : Option ℚ
  ac_values_read : Option AcValues
  flush : Option FlushOutput
deriving DecidableEq, Repr

/-- One full iteration of the loop of main.rs lines 110-193: one mcp3008
step; then, only if a voltage was read for the configured channel, one
ac_driver step, the recording step, and the flush-interval check. -/
def loopStep (mcp3008_channel : Channel) (dump_delay : ℚ) (s : LoopState)
    (env : Env) : Except Error (LoopState × StepOutput) :=
  match mcp3008Step mcp3008_channel s.mcp3008_session env with
  | .error e => .error (.mcp3008 e)
  | .ok (mcpSession, channel_voltage_read) =>
    match channel_voltage_read with
    | none =>
      .ok ({ s with mcp3008_session := mcpSession },
        { channel_voltage_read := none, ac_values_read := none, flush := none })
    | some voltage =>
      let now := env.now
      let step := acDriverStep s.ac_driver_session env
      let stats := recordStats
        ⟨s.ac_samples, s.ac_avg_hz, s.ac_avg_hi, s.ac_avg_lo⟩ step.2
      if durationSince now s.ac_last_dump ≥ dump_delay then
        .ok ({ mcp3008_session := mcpSession, ac_driver_session := step.1,
               ac_last_dump := now, ac_samples := 0,
               ac_avg_hz := 0, ac_avg_hi := 0, ac_avg_lo := 0 },
          { channel_voltage_read := some voltage, ac_values_read := step.2,
            flush := some (flushOutput stats) })
      else
        .ok ({ mcp3008_session := mcpSession, ac_driver_session := step.1,
               ac_last_dump := s.ac_last_dump, ac_samples := stats.ac_samples,
               ac_avg_hz := stats.ac_avg_hz, ac_avg_hi := stats.ac_avg_hi,
               ac_avg_lo := stats.ac_avg_lo },
          { channel_voltage_read := some voltage, ac_values_read := step.2,
            flush := none })

/-- The configuration and construction stage of main (lines 69-108):
validate the channel, build the params, then construct the ADC session.
The session constructor is an oracle standing for `mcp3008::Session::new`,
whose transport interaction lives outside this repository. -/
def mainSetup (carrier_channel : Nat) (voltage_drain : CliMcp3008Vdd)
    (voltage_ref : Option ℚ)
    (sessionNew : Mcp3008Params → Except Mcp3008Error Mcp3008Session) :
    Except Error (Channel × Mcp3008Params × Mcp3008Session) :=
  match channelOfNat carrier_channel with
  | .error e => .error e
  | .ok mcp3008_channel =>
    let mcp3008_params := buildParams voltage_drain voltage_ref
    match sessionNew mcp3008_params with
    | .error e => .error (.mcp3008 e)
    | .ok session => .ok (mcp3008_channel, mcp3008_params, session)

/-- C1: when the acquisition poll completes with a result whose channel
differs from the configured one, the result is silently discarded: the
driver goes back to Ready, no Reading is surfaced, nothing reaches the
carrier estimator or the statistics; only a matching-channel result
yields a Reading. -/
theorem c1_mismatched_result_discarded (mcp3008_channel : Channel)
    (dump_delay : ℚ) (s : LoopState) (env : Env) (channel : Channel)
    (value : ℚ) (hs : s.mcp3008_session = .probing)
    (hp : env.probePoll = .ok (.done channel value)) :
    ∃ s' out, loopStep mcp3008_channel dump_delay s env = .ok (s', out) ∧
      s'.mcp3008_session = .ready ∧
      (channel ≠ mcp3008_channel →
        out.channel_voltage_read = none ∧ out.ac_values_read = none ∧
        out.flush = none ∧ s'.ac_driver_session = s.ac_driver_session ∧
        s'.ac_samples = s.ac_samples ∧ s'.ac_avg_hz = s.ac_avg_hz ∧
        s'.ac_avg_hi = s.ac_avg_hi ∧ s'.ac_avg_lo = s.ac_avg_lo ∧
        s'.ac_last_dump = s.ac_last_dump) ∧
      (channel = mcp3008_channel → out.channel_voltage_read = some value) := by
  obtain ⟨ms, acs, ld, n, hz, hi, lo⟩ := s
  simp only at hs
  subst hs
  by_cases hc : channel = mcp3008_channel
  · subst hc
    simp only [loopStep, mcp3008Step, hp, if_pos rfl]
    by_cases hd :
        dump_delay ≤ durationSince env.now ld
    · simp only [ge_iff_le, if_pos hd]
      exact ⟨_, _, rfl, rfl, fun hne => absurd rfl hne, fun _ => rfl⟩
    · simp only [ge_iff_le, if_neg hd]
      exact ⟨_, _, rfl, rfl, fun hne => absurd rfl hne, fun _ => rfl⟩
  · simp only [loopStep, mcp3008Step, hp, if_neg hc]
    exact ⟨_, _, rfl, rfl,
      fun _ => ⟨rfl, rfl, rfl, rfl, rfl, rfl, rfl, rfl, rfl⟩,
      fun hceq => absurd hceq hc⟩

/-- Witness for C1 at a concrete state: configured channel ch0, a
completed conversion for ch1 arrives while probing. -/
theorem c1_witness :
    ∃ s' out,
      loopStep .ch0 1 ⟨.probing, .estimated, 0, 2, 120, 3, 1⟩
          ⟨5, .ok .idle, .ok (.done .ch1 (7 / 2)), .idle, .carrierLost⟩ =
        .ok (s', out) ∧
      s'.mcp3008_session = .ready ∧
      (Channel.ch1 ≠ Channel.ch0 →
        out.channel_voltage_read = none ∧ out.ac_values_read = none ∧
        out.flush = none ∧
        s'.ac_driver_session = AcSession.estimated ∧
        s'.ac_samples = 2 ∧ s'.ac_avg_hz = 120 ∧
        s'.ac_avg_hi = 3 ∧ s'.ac_avg_lo = 1 ∧ s'.ac_last_dump = 0) ∧
      (Channel.ch1 = Channel.ch0 → out.channel_voltage_read = some (7 / 2)) :=
  c1_mismatched_result_discarded .ch0 1
    ⟨.probing, .estimated, 0, 2, 120, 3, 1⟩
    ⟨5, .ok .idle, .ok (.done .ch1 (7 / 2)), .idle, .carrierLost⟩
    .ch1 (7 / 2) rfl rfl

/-- Inversion helper: every successful loop iteration is one of three
shapes — no voltage read (everything past the acquisition step skipped),
a voltage read with the flush interval elapsed, or a voltage read with
the flush interval not yet elapsed. -/
theorem loopStep_cases (mcp3008_channel : Channel) (dump_delay : ℚ)
    (s : LoopState) (env : Env) (s' : LoopState) (out : StepOutput)
    (h : loopStep mcp3008_channel dump_delay s env = .ok (s', out)) :
    (∃ ms',
      mcp3008Step mcp3008_channel s.mcp3008_session env = .ok (ms', none) ∧
      s' = { s with mcp3008_session := ms' } ∧ out = ⟨none, none, none⟩) ∨
    (∃ ms' v,
      mcp3008Step mcp3008_channel s.mcp3008_session env = .ok (ms', some v) ∧
      ((dump_delay ≤ durationSince env.now s.ac_last_dump ∧
        s' = ⟨ms', (acDriverStep s.ac_driver_session env).1, env.now,
          0, 0, 0, 0⟩ ∧
        out = ⟨some v, (acDriverStep s.ac_driver_session env).2,
          some (flushOutput (recordStats
            ⟨s.ac_samples, s.ac_avg_hz, s.ac_avg_hi, s.ac_avg_lo⟩
            (acDriverStep s.ac_driver_session env).2))⟩) ∨
       (¬ dump_delay ≤ durationSince env.now s.ac_last_dump ∧
        s' = ⟨ms', (acDriverStep s.ac_driver_session env).1, s.ac_last_dump,
          (recordStats ⟨s.ac_samples, s.ac_avg_hz, s.ac_avg_hi, s.ac_avg_lo⟩
            (acDriverStep s.ac_driver_session env).2).ac_samples,
          (recordStats ⟨s.ac_samples, s.ac_avg_hz, s.ac_avg_hi, s.ac_avg_lo⟩
            (acDriverStep s.ac_driver_session env).2).ac_avg_hz,
          (recordStats ⟨s.ac_samples, s.ac_avg_hz, s.ac_avg_hi, s.ac_avg_lo⟩
            (acDriverStep s.ac_driver_session env).2).ac_avg_hi,
          (recordStats ⟨s.ac_samples, s.ac_avg_hz, s.ac_avg_hi, s.ac_avg_lo⟩
            (acDriverStep s.ac_driver_session env).2).ac_avg_lo⟩ ∧
        out = ⟨some v, (acDriverStep s.ac_driver_session env).2, none⟩))) := by
  simp only [loopStep] at h
  cases hms : mcp3008Step mcp3008_channel s.mcp3008_session env with
  | error e => rw [hms] at h; exact absurd h (by simp)
  | ok p =>
    obtain ⟨ms', vr⟩ := p
    rw [hms] at h
    cases vr with
    | none =>
      left
      simp only [Except.ok.injEq, Prod.mk.injEq] at h
      exact ⟨ms', rfl, h.1.symm, h.2.symm⟩
    | some v =>
      right
      refine ⟨ms', v, rfl, ?_⟩
      simp only [ge_iff_le] at h
      by_cases hd : dump_delay ≤ durationSince env.now s.ac_last_dump
      · left
        rw [if_pos hd] at h
        simp only [Except.ok.injEq, Prod.mk.injEq] at h
        exact ⟨hd, h.1.symm, h.2.symm⟩
      · right
        rw [if_neg hd] at h
        simp only [Except.ok.injEq, Prod.mk.injEq] at h
        exact ⟨hd, h.1.symm, h.2.symm⟩

/-- C3: a configured channel outside [0,7] fails with
ChannelIsNotInRangeFrom0To7 naming the provided value, before the ADC
session is constructed (the outcome does not depend on the session
constructor, which is never consulted); a channel in [0,7] never
produces that error. -/
theorem c3_channel_validation (provided : Nat) (vd : CliMcp3008Vdd)
    (vr : Option ℚ)
    (ns ns' : Mcp3008Params → Except Mcp3008Error Mcp3008Session) :
    (7 < provided →
      mainSetup provided vd vr ns =
        .error (.channelIsNotInRangeFrom0To7 provided) ∧
      mainSetup provided vd vr ns = mainSetup provided vd vr ns') ∧
    (provided ≤ 7 →
      (∃ c, channelOfNat provided = .ok c) ∧
      ∀ p, mainSetup provided vd vr ns ≠
        .error (.channelIsNotInRangeFrom0To7 p)) := by
  constructor
  · intro hgt
    have hch : channelOfNat provided =
        .error (.channelIsNotInRangeFrom0To7 provided) := by
      match provided, hgt with
      | n + 8, _ => rfl
    constructor
    · simp only [mainSetup, hch]
    · simp only [mainSetup, hch]
  · intro hle
    have hch : ∃ c, channelOfNat provided = .ok c := by
      interval_cases provided
      · exact ⟨.ch0, rfl⟩
      · exact ⟨.ch1, rfl⟩
      · exact ⟨.ch2, rfl⟩
      · exact ⟨.ch3, rfl⟩
      · exact ⟨.ch4, rfl⟩
      · exact ⟨.ch5, rfl⟩
      · exact ⟨.ch6, rfl⟩
      · exact ⟨.ch7, rfl⟩
    refine ⟨hch, ?_⟩
    obtain ⟨c, hc⟩ := hch
    intro p
    simp only [mainSetup, hc]
    split <;> simp

/-- Witness for C3: channel 8 is rejected independently of the
constructor oracle, channel 5 passes validation. -/
theorem c3_witness :
    ((7 < 8 →
      mainSetup 8 .positive3v3 none (fun _ => .ok .initializing) =
        .error (.channelIsNotInRangeFrom0To7 8) ∧
      mainSetup 8 .positive3v3 none (fun _ => .ok .initializing) =
        mainSetup 8 .positive3v3 none (fun _ => .error (.mk 0))) ∧
    (8 ≤ 7 →
      (∃ c, channelOfNat 8 = .ok c) ∧
      ∀ p, mainSetup 8 .positive3v3 none (fun _ => .ok .initializing) ≠
        .error (.channelIsNotInRangeFrom0To7 p))) ∧
    ((7 < 5 →
      mainSetup 5 .positive5v none (fun _ => .ok .initializing) =
        .error (.channelIsNotInRangeFrom0To7 5) ∧
      mainSetup 5 .positive5v none (fun _ => .ok .initializing) =
        mainSetup 5 .positive5v none (fun _ => .error (.mk 0))) ∧
    (5 ≤ 7 →
      (∃ c, channelOfNat 5 = .ok c) ∧
      ∀ p, mainSetup 5 .positive5v none (fun _ => .ok .initializing) ≠
        .error (.channelIsNotInRangeFrom0To7 p))) :=
  ⟨c3_channel_validation 8 .positive3v3 none
      (fun _ => .ok .initializing) (fun _ => .error (.mk 0)),
    c3_channel_validation 5 .positive5v none
      (fun _ => .ok .initializing) (fun _ => .error (.mk 0))⟩

/-- C2: a value is recorded into the rolling statistics (sample count
incremented, sums added) exactly when the estimator produced values —
the CarrierDetected outcome of the unlocked state or the Idle outcome of
the locked (Estimated) state; nothing is recorded on CarrierLost or
while the estimator stays unlocked. -/
theorem c2_record_iff_locked_estimate (mcp3008_channel : Channel)
    (dump_delay : ℚ) (s : LoopState) (env : Env) (s' : LoopState)
    (out : StepOutput)
    (h : loopStep mcp3008_channel dump_delay s env = .ok (s', out)) :
    (out.ac_values_read.isSome ↔
      out.channel_voltage_read.isSome ∧
        ((s.ac_driver_session = .initializing ∧
            ∃ v, env.acInitRead = .carrierDetected v) ∨
         (s.ac_driver_session = .estimated ∧
            ∃ v, env.acEstRead = .idle v))) ∧
    (∀ (stats : Stats) (vals : Option AcValues),
      (recordStats stats vals).ac_samples =
        stats.ac_samples + if vals.isSome then 1 else 0) ∧
    (∀ stats : Stats, recordStats stats none = stats) := by
  have hrec : ∀ (stats : Stats) (vals : Option AcValues),
      (recordStats stats vals).ac_samples =
        stats.ac_samples + if vals.isSome then 1 else 0 := by
    intro stats vals
    cases vals <;> simp [recordStats]
  have hnone : ∀ stats : Stats, recordStats stats none = stats := by
    intro stats; rfl
  refine ⟨?_, hrec, hnone⟩
  have hac : ((acDriverStep s.ac_driver_session env).2).isSome ↔
      ((s.ac_driver_session = .initializing ∧
          ∃ v, env.acInitRead = .carrierDetected v) ∨
       (s.ac_driver_session = .estimated ∧
          ∃ v, env.acEstRead = .idle v)) := by
    cases hs : s.ac_driver_session with
    | initializing =>
      cases hi : env.acInitRead with
      | idle => simp [acDriverStep, hi]
      | carrierDetected v => simp [acDriverStep, hi]
    | estimated =>
      cases he : env.acEstRead with
      | idle v => simp [acDriverStep, he]
      | carrierLost => simp [acDriverStep, he]
  rcases loopStep_cases mcp3008_channel dump_delay s env s' out h with
    ⟨ms', _, _, hout⟩ | ⟨ms', v, _, ⟨_, _, hout⟩ | ⟨_, _, hout⟩⟩ <;>
    subst hout <;> simp [hac]

/-- Witness for C2 at a concrete iteration: probing completes on the
configured channel while the estimator is locked and stays locked. -/
theorem c2_witness :
    ((StepOutput.mk (some 2) (some ⟨60, 3, 1⟩) none).ac_values_read.isSome ↔
      (StepOutput.mk (some 2) (some ⟨60, 3, 1⟩)
          none).channel_voltage_read.isSome ∧
        (((⟨.probing, .estimated, 0, 0, 0, 0, 0⟩ :
              LoopState).ac_driver_session = .initializing ∧
            ∃ v, (⟨9, .ok .idle, .ok (.done .ch0 2), .idle,
              .idle ⟨60, 3, 1⟩⟩ : Env).acInitRead = .carrierDetected v) ∨
         ((⟨.probing, .estimated, 0, 0, 0, 0, 0⟩ :
              LoopState).ac_driver_session = .estimated ∧
            ∃ v, (⟨9, .ok .idle, .ok (.done .ch0 2), .idle,
              .idle ⟨60, 3, 1⟩⟩ : Env).acEstRead = .idle v))) ∧
    (∀ (stats : Stats) (vals : Option AcValues),
      (recordStats stats vals).ac_samples =
        stats.ac_samples + if vals.isSome then 1 else 0) ∧
    (∀ stats : Stats, recordStats stats none = stats) :=
  c2_record_iff_locked_estimate .ch0 100
    ⟨.probing, .estimated, 0, 0, 0, 0, 0⟩
    ⟨9, .ok .idle, .ok (.done .ch0 2), .idle, .idle ⟨60, 3, 1⟩⟩
    ⟨.ready, .estimated, 0, 1, 60, 3, 1⟩
    ⟨some 2, some ⟨60, 3, 1⟩, none⟩
    (by norm_num [loopStep, mcp3008Step, acDriverStep, recordStats, durationSince])

/-- C10: an iteration that surfaces no Reading for the configured channel
leaves the estimator state, the sample count, all three sums and the
last-flush instant unchanged, records nothing and flushes nothing. -/
theorem c10_no_reading_frame (mcp3008_channel : Channel) (dump_delay : ℚ)
    (s : LoopState) (env : Env) (s' : LoopState) (out : StepOutput)
    (h : loopStep mcp3008_channel dump_delay s env = .ok (s', out))
    (hr : out.channel_voltage_read = none) :
    s'.ac_driver_session = s.ac_driver_session ∧
    s'.ac_samples = s.ac_samples ∧ s'.ac_avg_hz = s.ac_avg_hz ∧
    s'.ac_avg_hi = s.ac_avg_hi ∧ s'.ac_avg_lo = s.ac_avg_lo ∧
    s'.ac_last_dump = s.ac_last_dump ∧
    out.ac_values_read = none ∧ out.flush = none := by
  rcases loopStep_cases mcp3008_channel dump_delay s env s' out h with
    ⟨ms', _, hst, hout⟩ | ⟨ms', v, _, ⟨_, _, hout⟩ | ⟨_, _, hout⟩⟩
  · subst hst; subst hout
    exact ⟨rfl, rfl, rfl, rfl, rfl, rfl, rfl, rfl⟩
  · subst hout; simp at hr
  · subst hout; simp at hr

/-- Witness for C10 at a concrete iteration: the acquisition session is
re-arming from Ready, so no Reading appears and nothing else moves. -/
theorem c10_witness :
    AcSession.estimated = AcSession.estimated ∧
    (7 : Nat) = 7 ∧ (420 : ℚ) = 420 ∧ (21 : ℚ) = 21 ∧ (7 : ℚ) = 7 ∧
    (4 : ℚ) = 4 ∧
    (StepOutput.mk none none none).ac_values_read = none ∧
    (StepOutput.mk none none none).flush = none :=
  c10_no_reading_frame .ch0 1 ⟨.ready, .estimated, 4, 7, 420, 21, 7⟩
    ⟨5, .ok .idle, .ok .idle, .idle, .carrierLost⟩
    ⟨.probing, .estimated, 4, 7, 420, 21, 7⟩
    ⟨none, none, none⟩ rfl rfl

/-- C4: a flush emits the no-samples notice when the count is zero and
otherwise the arithmetic means of the accumulated sums; it resets the
counters and moves the flush timestamp to now; recording the frequencies
59.9, 60.0 and 60.1 yields a mean frequency of exactly 60. -/
theorem c4_flush_means (mcp3008_channel : Channel) (dump_delay : ℚ)
    (s : LoopState) (env : Env) (s' : LoopState) (out : StepOutput)
    (f : FlushOutput)
    (h : loopStep mcp3008_channel dump_delay s env = .ok (s', out))
    (hf : out.flush = some f) :
    f = flushOutput (recordStats
      ⟨s.ac_samples, s.ac_avg_hz, s.ac_avg_hi, s.ac_avg_lo⟩
      out.ac_values_read) ∧
    s'.ac_last_dump = env.now ∧
    s'.ac_samples = 0 ∧ s'.ac_avg_hz = 0 ∧ s'.ac_avg_hi = 0 ∧
    s'.ac_avg_lo = 0 ∧
    (∀ stats : Stats, stats.ac_samples = 0 →
      flushOutput stats = .noSamples) ∧
    (∀ stats : Stats, stats.ac_samples ≠ 0 →
      flushOutput stats =
        .means (stats.ac_avg_hz / (stats.ac_samples : ℚ))
          (stats.ac_avg_hi / (stats.ac_samples : ℚ))
          (stats.ac_avg_lo / (stats.ac_samples : ℚ))) ∧
    flushOutput (recordStats (recordStats (recordStats ⟨0, 0, 0, 0⟩
        (some ⟨599 / 10, 1, -1⟩)) (some ⟨60, 1, -1⟩))
        (some ⟨601 / 10, 1, -1⟩)) = .means 60 1 (-1) := by
  have hzero : ∀ stats : Stats, stats.ac_samples = 0 →
      flushOutput stats = .noSamples := by
    intro stats h0; simp [flushOutput, h0]
  have hmeans : ∀ stats : Stats, stats.ac_samples ≠ 0 →
      flushOutput stats =
        .means (stats.ac_avg_hz / (stats.ac_samples : ℚ))
          (stats.ac_avg_hi / (stats.ac_samples : ℚ))
          (stats.ac_avg_lo / (stats.ac_samples : ℚ)) := by
    intro stats h0; simp [flushOutput, h0]
  have hconc : flushOutput (recordStats (recordStats (recordStats
      ⟨0, 0, 0, 0⟩ (some ⟨599 / 10, 1, -1⟩)) (some ⟨60, 1, -1⟩))
      (some ⟨601 / 10, 1, -1⟩)) = .means 60 1 (-1) := by
    norm_num [flushOutput, recordStats]
  rcases loopStep_cases mcp3008_channel dump_delay s env s' out h with
    ⟨ms', _, hst, hout⟩ | ⟨ms', v, _, ⟨_, hst, hout⟩ | ⟨_, hst, hout⟩⟩
  · subst hout; simp at hf
  · subst hout; subst hst
    simp only [Option.some.injEq] at hf
    subst hf
    exact ⟨rfl, rfl, rfl, rfl, rfl, rfl, hzero, hmeans, hconc⟩
  · subst hout; simp at hf

/-- Witness for C4 at a concrete flushing iteration: two samples already
accumulated, a third recorded, interval elapsed. -/
theorem c4_witness :
    FlushOutput.means 60 2 1 =
      flushOutput (recordStats ⟨2, 120, 4, 2⟩ (some ⟨60, 2, 1⟩)) ∧
    (10 : ℚ) = 10 ∧ (0 : Nat) = 0 ∧ (0 : ℚ) = 0 ∧ (0 : ℚ) = 0 ∧
    (0 : ℚ) = 0 ∧
    (∀ stats : Stats, stats.ac_samples = 0 →
      flushOutput stats = .noSamples) ∧
    (∀ stats : Stats, stats.ac_samples ≠ 0 →
      flushOutput stats =
        .means (stats.ac_avg_hz / (stats.ac_samples : ℚ))
          (stats.ac_avg_hi / (stats.ac_samples : ℚ))
          (stats.ac_avg_lo / (stats.ac_samples : ℚ))) ∧
    flushOutput (recordStats (recordStats (recordStats ⟨0, 0, 0, 0⟩
        (some ⟨599 / 10, 1, -1⟩)) (some ⟨60, 1, -1⟩))
        (some ⟨601 / 10, 1, -1⟩)) = .means 60 1 (-1) :=
  c4_flush_means .ch0 1 ⟨.probing, .estimated, 0, 2, 120, 4, 2⟩
    ⟨10, .ok .idle, .ok (.done .ch0 3), .idle, .idle ⟨60, 2, 1⟩⟩
    ⟨.ready, .estimated, 10, 0, 0, 0, 0⟩
    ⟨some 3, some ⟨60, 2, 1⟩, some (.means 60 2 1)⟩
    (.means 60 2 1)
    (by norm_num [loopStep, mcp3008Step, acDriverStep, recordStats,
      durationSince, flushOutput])
    rfl

/-- C5: whenever an iteration flushes, the sample count and all three
running sums of the next state are all zero together, never partially. -/
theorem c5_counters_zero_after_flush (mcp3008_channel : Channel)
    (dump_delay : ℚ) (s : LoopState) (env : Env) (s' : LoopState)
    (out : StepOutput)
    (h : loopStep mcp3008_channel dump_delay s env = .ok (s', out))
    (hf : out.flush.isSome) :
    s'.ac_samples = 0 ∧ s'.ac_avg_hz = 0 ∧ s'.ac_avg_hi = 0 ∧
    s'.ac_avg_lo = 0 := by
  rcases loopStep_cases mcp3008_channel dump_delay s env s' out h with
    ⟨ms', _, hst, hout⟩ | ⟨ms', v, _, ⟨_, hst, hout⟩ | ⟨_, hst, hout⟩⟩
  · subst hout; simp at hf
  · subst hst; exact ⟨rfl, rfl, rfl, rfl⟩
  · subst hout; simp at hf

/-- Witness for C5 at the same concrete flushing iteration as C4. -/
theorem c5_witness :
    (0 : Nat) = 0 ∧ (0 : ℚ) = 0 ∧ (0 : ℚ) = 0 ∧ (0 : ℚ) = 0 :=
  c5_counters_zero_after_flush .ch0 1
    ⟨.probing, .estimated, 0, 2, 120, 4, 2⟩
    ⟨10, .ok .idle, .ok (.done .ch0 3), .idle, .idle ⟨60, 2, 1⟩⟩
    ⟨.ready, .estimated, 10, 0, 0, 0, 0⟩
    ⟨some 3, some ⟨60, 2, 1⟩, some (.means 60 2 1)⟩
    (by norm_num [loopStep, mcp3008Step, acDriverStep, recordStats,
      durationSince, flushOutput])
    rfl

/-- C6 counterexample: an iteration on which the flush interval has long
elapsed (elapsed 10 with interval 1) but no Reading is produced (the
conversion is still in flight) performs no flush at all — the flush
check of main.rs line 179 sits inside the reading branch, so it is not
part of every iteration. -/
theorem c6_counterexample :
    (1 : ℚ) ≤ durationSince 10 0 ∧
    loopStep .ch0 1 ⟨.probing, .initializing, 0, 5, 300, 10, 2⟩
        ⟨10, .ok .idle, .ok .idle, .idle, .carrierLost⟩ =
      .ok (⟨.probing, .initializing, 0, 5, 300, 10, 2⟩,
        ⟨none, none, none⟩) := by
  constructor
  · norm_num [durationSince]
  · rfl

/-- C6 amended: the flush-interval check runs only in iterations that
produced a Reading for the configured channel; within such an iteration
a flush happens exactly when the elapsed time since the last flush has
reached the interval. -/
theorem c6_amended_flush_condition (mcp3008_channel : Channel)
    (dump_delay : ℚ) (s : LoopState) (env : Env) (s' : LoopState)
    (out : StepOutput)
    (h : loopStep mcp3008_channel dump_delay s env = .ok (s', out)) :
    out.flush.isSome ↔
      out.channel_voltage_read.isSome ∧
        dump_delay ≤ durationSince env.now s.ac_last_dump := by
  rcases loopStep_cases mcp3008_channel dump_delay s env s' out h with
    ⟨ms', _, hst, hout⟩ | ⟨ms', v, _, ⟨hd, hst, hout⟩ | ⟨hd, hst, hout⟩⟩
  · subst hout; simp
  · subst hout; simpa using hd
  · subst hout; simpa using hd

/-- Witness for C6 amended: a Reading arrives with the interval elapsed,
so a flush fires. -/
theorem c6_amended_witness :
    (StepOutput.mk (some 3) (some ⟨60, 2, 1⟩)
        (some (.means 60 2 1))).flush.isSome ↔
      (StepOutput.mk (some 3) (some ⟨60, 2, 1⟩)
          (some (.means 60 2 1))).channel_voltage_read.isSome ∧
        (1 : ℚ) ≤ durationSince 10 0 :=
  c6_amended_flush_condition .ch0 1
    ⟨.probing, .estimated, 0, 2, 120, 4, 2⟩
    ⟨10, .ok .idle, .ok (.done .ch0 3), .idle, .idle ⟨60, 2, 1⟩⟩
    ⟨.ready, .estimated, 10, 0, 0, 0, 0⟩
    ⟨some 3, some ⟨60, 2, 1⟩, some (.means 60 2 1)⟩
    (by norm_num [loopStep, mcp3008Step, acDriverStep, recordStats,
      durationSince, flushOutput])

/-- C7: a transport error from the initialization probe, the conversion
poll or the session constructor propagates immediately as the fatal
Mcp3008 error, while the still-initializing and still-converting idle
outcomes are not errors — the iteration succeeds and merely keeps
polling in the same session state. -/
theorem c7_transport_errors_fatal (mcp3008_channel : Channel)
    (dump_delay : ℚ) (s : LoopState) (env : Env) (e : Mcp3008Error) :
    (s.mcp3008_session = .initializing → env.initProbe = .error e →
      loopStep mcp3008_channel dump_delay s env = .error (.mcp3008 e)) ∧
    (s.mcp3008_session = .probing → env.probePoll = .error e →
      loopStep mcp3008_channel dump_delay s env = .error (.mcp3008 e)) ∧
    (s.mcp3008_session = .initializing → env.initProbe = .ok .idle →
      loopStep mcp3008_channel dump_delay s env =
        .ok (s, ⟨none, none, none⟩)) ∧
    (s.mcp3008_session = .probing → env.probePoll = .ok .idle →
      loopStep mcp3008_channel dump_delay s env =
        .ok (s, ⟨none, none, none⟩)) ∧
    (∀ (provided : Nat) (vd : CliMcp3008Vdd) (vr : Option ℚ)
        (ns : Mcp3008Params → Except Mcp3008Error Mcp3008Session)
        (c : Channel),
      channelOfNat provided = .ok c → ns (buildParams vd vr) = .error e →
      mainSetup provided vd vr ns = .error (.mcp3008 e)) := by
  obtain ⟨ms, acs, ld, n, hz, hi, lo⟩ := s
  refine ⟨?_, ?_, ?_, ?_, ?_⟩
  · intro hs hp
    simp only at hs; subst hs
    simp [loopStep, mcp3008Step, hp]
  · intro hs hp
    simp only at hs; subst hs
    simp [loopStep, mcp3008Step, hp]
  · intro hs hp
    simp only at hs; subst hs
    simp [loopStep, mcp3008Step, hp]
  · intro hs hp
    simp only at hs; subst hs
    simp [loopStep, mcp3008Step, hp]
  · intro provided vd vr ns c hch hns
    simp [mainSetup, hch, hns]

/-- Witness for C7: a probe error, a poll error, an idle probe, an idle
poll and a failing constructor, each at concrete inputs. -/
theorem c7_witness :
    loopStep Channel.ch0 1 ⟨.initializing, .initializing, 0, 0, 0, 0, 0⟩
        ⟨0, .error (.mk 7), .ok .idle, .idle, .carrierLost⟩ =
      .error (.mcp3008 (.mk 7)) ∧
    loopStep Channel.ch0 1 ⟨.probing, .initializing, 0, 0, 0, 0, 0⟩
        ⟨0, .ok .idle, .error (.mk 9), .idle, .carrierLost⟩ =
      .error (.mcp3008 (.mk 9)) ∧
    loopStep Channel.ch0 1 ⟨.initializing, .initializing, 0, 0, 0, 0, 0⟩
        ⟨0, .ok .idle, .ok .idle, .idle, .carrierLost⟩ =
      .ok (⟨.initializing, .initializing, 0, 0, 0, 0, 0⟩,
        ⟨none, none, none⟩) ∧
    mainSetup 3 .positive5v none (fun _ => .error (.mk 11)) =
      .error (.mcp3008 (.mk 11)) :=
  ⟨(c7_transport_errors_fatal .ch0 1
      ⟨.initializing, .initializing, 0, 0, 0, 0, 0⟩
      ⟨0, .error (.mk 7), .ok .idle, .idle, .carrierLost⟩ (.mk 7)).1
      rfl rfl,
   (c7_transport_errors_fatal .ch0 1
      ⟨.probing, .initializing, 0, 0, 0, 0, 0⟩
      ⟨0, .ok .idle, .error (.mk 9), .idle, .carrierLost⟩ (.mk 9)).2.1
      rfl rfl,
   (c7_transport_errors_fatal .ch0 1
      ⟨.initializing, .initializing, 0, 0, 0, 0, 0⟩
      ⟨0, .ok .idle, .ok .idle, .idle, .carrierLost⟩ (.mk 7)).2.2.1
      rfl rfl,
   (c7_transport_errors_fatal .ch0 1
      ⟨.initializing, .initializing, 0, 0, 0, 0, 0⟩
      ⟨0, .ok .idle, .ok .idle, .idle, .carrierLost⟩
      (.mk 11)).2.2.2.2 3 .positive5v none (fun _ => .error (.mk 11))
      .ch3 rfl rfl⟩

/-- C8 counterexample: an explicit reference voltage supplied together
with the nominal supply-voltage choice is not rejected — configuration
proceeds, the params carry both, and the session constructor is reached,
so no ConfigurationError is ever raised for this combination. -/
theorem c8_counterexample :
    mainSetup 0 .positive3v3 (some 4) (fun _ => .ok .initializing) =
      .ok (.ch0, ⟨.positive3v3, .other 4⟩, .initializing) := rfl

/-- C8 amended: supplying an explicit reference voltage alongside the
nominal supply-voltage choice is accepted without any configuration
error; the explicit value becomes Vref::Other while the nominal choice
still sets Vdd, and the outcome depends only on the session
constructor. -/
theorem c8_amended_explicit_ref_accepted (vd : CliMcp3008Vdd) (r : ℚ)
    (ns : Mcp3008Params → Except Mcp3008Error Mcp3008Session) :
    mainSetup 0 vd (some r) ns =
      (match ns ⟨vddOfCli vd, .other r⟩ with
       | .error e => .error (.mcp3008 e)
       | .ok session => .ok (.ch0, ⟨vddOfCli vd, .other r⟩, session)) :=
  rfl

/-- C9: with no explicit reference voltage the params use EqualToVdd;
with an explicit value v the params use exactly Other v, independent of
the nominal supply choice. -/
theorem c9_vref_configuration :
    (∀ vd : CliMcp3008Vdd, (buildParams vd none).voltage_ref =
      .equalToVdd) ∧
    (∀ (vd : CliMcp3008Vdd) (v : ℚ),
      (buildParams vd (some v)).voltage_ref = .other v) ∧
    vrefOfCli none = .equalToVdd ∧
    (∀ v : ℚ, vrefOfCli (some v) = .other v) :=
  ⟨fun _ => rfl, fun _ _ => rfl, rfl, fun _ => rfl⟩

end Oscilloscope
